import Mathlib

/-!
Shallow embedding of the valuation core of the repository
(`growth_estimation.py`, `mos.py`, `ten_cap.py`, `fmp_api.py`), together
with theorems checking the specification's claims against it.

Conventions of the embedding:
* Python floats are modelled as ideal numbers: `ℝ` where real exponentiation
  (`**` with fractional exponent) occurs, `ℚ` where only field operations occur.
* Python dictionaries returned by the functions are modelled as association
  lists (`List (String × _)`) preserving insertion order; `dict.get(k, 0)` on
  raw provider records is modelled by structures whose absent fields are `0`.
* A raised exception is modelled by `Except String`.
* Python truthiness of an optional float (`if price:`) is `pyTruthy`.
-/

/-- `round(x, 2)` of Python, in an ideal ordered field: round `x` to two
decimal places. -/
def round2 {α : Type} [LinearOrderedField α] [FloorRing α] (x : α) : α :=
  (round (x * 100) : ℤ) / 100

/-! ## growth_estimation.py -/

/-- A Python value passed to `calculate_cagr`: either a number, or a value on
which `float()` raises (the non-numeric case caught by the `try/except`). -/
inductive PyVal where
  | num (x : ℝ) : PyVal
  | nonnum : PyVal

/-- `float(v)`: succeeds exactly on numeric values. -/
def pyFloat : PyVal → Option ℝ
  | .num x => some x
  | .nonnum => none

/-- `calculate_cagr` of `growth_estimation.py`, numeric path: after the
`float` conversions succeed, return 0 on any non-positive input, otherwise
`(end/start) ** (1/years) - 1`. -/
noncomputable def calculate_cagr (start endVal years : ℝ) : ℝ :=
  if start ≤ 0 ∨ endVal ≤ 0 ∨ years ≤ 0 then 0
  else (endVal / start) ^ ((1 : ℝ) / years) - 1

/-- `calculate_cagr` of `growth_estimation.py` on raw Python values: the
`try/except` around the `float` conversions returns 0 when any conversion
fails, then the numeric path runs. -/
noncomputable def calculate_cagr_py (start endVal years : PyVal) : ℝ :=
  match pyFloat start, pyFloat endVal, pyFloat years with
  | some s, some e, some y => calculate_cagr s e y
  | _, _, _ => 0

/-- The `for key, values in data_dict.items()` loop of `mos_growth_estimate`:
returns the `details` association list (in iteration order) and the `growths`
list.  A series shorter than `start_index + 6` stores detail 0 and is skipped
(`continue`): nothing is appended to `growths`.  Otherwise the window
endpoints `values[start_index]` and `values[start_index+5]` are taken; if both
are strictly positive the CAGR is appended to `growths` and its rounded
percentage stored, else 0 is appended and stored. -/
noncomputable def mosLoop (si : ℕ) : List (String × List ℝ) → List (String × ℝ) × List ℝ
  | [] => ([], [])
  | (key, values) :: rest =>
    if values.length < si + 6 then
      let r := mosLoop si rest
      ((key, 0) :: r.1, r.2)
    else
      let start := values.getD si 0
      let endVal := values.getD (si + 5) 0
      if 0 < start ∧ 0 < endVal then
        let cagr := calculate_cagr start endVal 5
        let r := mosLoop si rest
        ((key, round2 (cagr * 100)) :: r.1, cagr :: r.2)
      else
        let r := mosLoop si rest
        ((key, 0) :: r.1, (0 : ℝ) :: r.2)

/-- `mos_growth_estimate` of `growth_estimation.py`.  Raises
(`Except.error`) when `start_index = target_year - data_start_year - 5`
is negative; otherwise runs the per-metric loop and appends the `avg` key:
`sum(growths)/len(growths) if growths else 0`, as a rounded percentage. -/
noncomputable def mos_growth_estimate (data : List (String × List ℝ))
    (target_year data_start_year : ℤ) : Except String (List (String × ℝ)) :=
  let start_index := target_year - data_start_year - 5
  if start_index < 0 then
    .error "Not enough data points before target year to calculate CAGR"
  else
    let r := mosLoop start_index.toNat data
    let avg_growth := if r.2.length ≠ 0 then r.2.sum / (r.2.length : ℝ) else 0
    .ok (r.1 ++ [("avg", round2 (avg_growth * 100))])

/-- The detail value `mos_growth_estimate` stores for one metric: 0 for a
too-short series and for a non-positive window endpoint, otherwise the
rounded CAGR percentage. -/
noncomputable def metricDetail (si : ℕ) (values : List ℝ) : ℝ :=
  if values.length < si + 6 then 0
  else if 0 < values.getD si 0 ∧ 0 < values.getD (si + 5) 0 then
    round2 (calculate_cagr (values.getD si 0) (values.getD (si + 5) 0) 5 * 100)
  else 0

/-- The decimal CAGR one metric contributes to the average: `none` when the
series is too short (the metric is skipped and takes no part in the
average), `some 0` when a window endpoint is non-positive. -/
noncomputable def metricGrowth (si : ℕ) (values : List ℝ) : Option ℝ :=
  if values.length < si + 6 then none
  else if 0 < values.getD si 0 ∧ 0 < values.getD (si + 5) 0 then
    some (calculate_cagr (values.getD si 0) (values.getD (si + 5) 0) 5)
  else some 0

/-- The `avg` entry as the code computes it: the mean of the contributed
decimal CAGRs — metrics skipped for insufficient length are excluded from
numerator and denominator — as a rounded percentage, 0 when every metric was
skipped. -/
noncomputable def mosAvgSpec (si : ℕ) (series : List (List ℝ)) : ℝ :=
  let gs := series.filterMap (metricGrowth si)
  round2 ((if gs.length ≠ 0 then gs.sum / (gs.length : ℝ) else 0) * 100)

/-! ## mos.py -/

/-- `calculate_intrinsic_value` of `mos.py`.  `breach_year` is used only for
logging.  The guard branch returns the four-key all-zero dictionary; the main
branch returns the six-key dictionary of rounded figures. -/
def calculate_intrinsic_value (eps_now growth_rate : ℚ) (breach_year : ℤ)
    (discount_rate : ℚ := 15/100) (mos : ℚ := 50/100) : List (String × ℚ) :=
  if eps_now ≤ 0 ∨ growth_rate ≤ 0 then
    [("EPS_10y", 0), ("Future Value", 0), ("Fair Value Today", 0),
     ("MOS Price (50%)", 0)]
  else
    let eps_10y := eps_now * (1 + growth_rate) ^ (10 : ℕ)
    let future_pe := growth_rate * 200
    let future_value := eps_10y * future_pe
    let fair_value_today := future_value / (1 + discount_rate) ^ (10 : ℕ)
    let mos_price := fair_value_today * (1 - mos)
    [("Groth_rate", round2 (growth_rate * 100)),
     ("EPS_now", round2 eps_now),
     ("EPS_10y", round2 eps_10y),
     ("Future Value", round2 future_value),
     ("Fair Value Today", round2 fair_value_today),
     ("MOS Price (50%)", round2 mos_price)]

/-! ## ten_cap.py -/

/-- `calculate_owner_earnings` of `ten_cap.py`: only 50% of maintenance
capex counts. -/
def calculate_owner_earnings (profit_before_tax depreciation
    working_capital_change maintenance_capex : ℚ) : ℚ :=
  let adjusted_maintenance := maintenance_capex * (1/2)
  profit_before_tax + depreciation + working_capital_change - adjusted_maintenance

/-- A record of the provider's income-statement collection; fields read with
`.get(k, 0)` default to 0, so an absent field is modelled by the value 0. -/
structure IncomeRecord where
  calendarYear : ℤ
  incomeBeforeTax : ℚ := 0
  weightedAverageShsOut : ℚ := 0
  weightedAverageShsOutDil : ℚ := 0

/-- A record of the provider's cash-flow-statement collection. -/
structure CashflowRecord where
  calendarYear : ℤ
  depreciationAndAmortization : ℚ := 0
  depreciation : ℚ := 0
  depreciationAmortizationDepletion : ℚ := 0
  depreciationDepletionAndAmortization : ℚ := 0
  accountsReceivables : ℚ := 0
  accountsPayables : ℚ := 0
  capitalExpenditure : ℚ := 0

/-- A record of the provider's key-metrics collection. -/
structure MetricsRecord where
  calendarYear : ℤ
  weightedAverageShsOut : ℚ := 0
  weightedAverageShsOutDil : ℚ := 0

/-- Python `a or b` on numbers: the first operand unless it is falsy (zero). -/
def pyOr (a b : ℚ) : ℚ := if a ≠ 0 then a else b

/-- `calculate_working_capital_change` of `ten_cap.py` (the change itself;
the components dictionary is only logged). -/
def calculate_working_capital_change (c : CashflowRecord) : ℚ :=
  let MILLION : ℚ := 1000000
  c.accountsReceivables / MILLION + c.accountsPayables / MILLION

/-- `next((d for d in recs if str(d.get('calendarYear')) == year_str), None)`:
first record of the collection whose calendar year matches. -/
def findIncome (recs : List IncomeRecord) (year : ℤ) : Option IncomeRecord :=
  recs.find? (fun r => r.calendarYear == year)

/-- Year lookup in the cash-flow collection. -/
def findCashflow (recs : List CashflowRecord) (year : ℤ) : Option CashflowRecord :=
  recs.find? (fun r => r.calendarYear == year)

/-- Year lookup in the key-metrics collection. -/
def findMetrics (recs : List MetricsRecord) (year : ℤ) : Option MetricsRecord :=
  recs.find? (fun r => r.calendarYear == year)

/-- `calculate_ten_cap_price` of `ten_cap.py`, after the three provider
fetches: empty collections or a missing year record give `none`; the
depreciation and shares-outstanding values fall through chains of `or`s over
alternative field names; non-positive shares outstanding give `none`;
otherwise the ten-cap price is owner earnings per share over the 10%
capitalization rate. -/
def calculate_ten_cap_price (income_data : List IncomeRecord)
    (cashflow_data : List CashflowRecord) (metrics : List MetricsRecord)
    (year : ℤ) : Option ℚ :=
  if income_data.isEmpty ∨ cashflow_data.isEmpty ∨ metrics.isEmpty then none
  else
    match findIncome income_data year, findCashflow cashflow_data year,
        findMetrics metrics year with
    | some current_year_data, some current_cashflow, some current_metrics =>
      let MILLION : ℚ := 1000000
      let profit_before_tax := current_year_data.incomeBeforeTax / MILLION
      let depreciation :=
        (pyOr current_cashflow.depreciationAndAmortization
          (pyOr current_cashflow.depreciation
            (pyOr current_cashflow.depreciationAmortizationDepletion
              current_cashflow.depreciationDepletionAndAmortization))) / MILLION
      let working_capital_change := calculate_working_capital_change current_cashflow
      let maintenance_capex := |current_cashflow.capitalExpenditure| / MILLION
      let shares_outstanding :=
        (pyOr current_metrics.weightedAverageShsOut
          (pyOr current_metrics.weightedAverageShsOutDil
            (pyOr current_year_data.weightedAverageShsOut
              current_year_data.weightedAverageShsOutDil))) / MILLION
      if shares_outstanding ≤ 0 then none
      else
        let owner_earnings := calculate_owner_earnings profit_before_tax
          depreciation working_capital_change maintenance_capex
        let eps := if shares_outstanding > 0 then owner_earnings / shares_outstanding else 0
        some (eps / (10/100))
    | _, _, _ => none

/-- A sample income record (calendar year 2020, income before tax $100M,
50M weighted average shares outstanding). -/
def tenCapIncomeSample : IncomeRecord :=
  { calendarYear := 2020, incomeBeforeTax := 100000000,
    weightedAverageShsOut := 50000000 }

/-- A sample cash-flow record (depreciation $20M, receivables delta −$3M,
payables delta −$2M, capital expenditure −$10M). -/
def tenCapCashflowSample : CashflowRecord :=
  { calendarYear := 2020, depreciationAndAmortization := 20000000,
    accountsReceivables := -3000000, accountsPayables := -2000000,
    capitalExpenditure := -10000000 }

/-- A sample key-metrics record carrying no shares-outstanding fields, so
that the fallback chain reaches the income record. -/
def tenCapMetricsSample : MetricsRecord := { calendarYear := 2020 }

/-! ## fmp_api.py: price lookup -/

/-- The provider's historical-close table, as a function from day (dates are
modelled as integer day numbers) to the recorded close, when the `historical`
array for that day is non-empty. -/
def get_price_on_date (market : ℤ → Option ℚ) (date : ℤ) : Option ℚ :=
  market date

/-- Python truthiness of `price` in `if price:`: `None` and `0.0` are falsy. -/
def pyTruthy : Option ℚ → Bool
  | none => false
  | some x => x != 0

/-- The `for i in range(14)` loop of `get_valid_price`, over the list of
offsets still to try: the first candidate date with a truthy price is
returned with its price; exhaustion gives `(None, None)`. -/
def validLoop (market : ℤ → Option ℚ) (base : ℤ) : List ℕ → Option ℚ × Option ℤ
  | [] => (none, none)
  | i :: rest =>
    let current_date := base - (i : ℤ)
    let price := get_price_on_date market current_date
    if pyTruthy price then (price, some current_date)
    else validLoop market base rest

/-- `get_valid_price` of `fmp_api.py`: walk back at most 14 days from the
base date. -/
def get_valid_price (market : ℤ → Option ℚ) (base : ℤ) : Option ℚ × Option ℤ :=
  validLoop market base (List.range 14)

/-! ## Lemmas about the price-lookup loop -/

lemma validLoop_nil (market : ℤ → Option ℚ) (base : ℤ) :
    validLoop market base [] = (none, none) := rfl

lemma validLoop_cons (market : ℤ → Option ℚ) (base : ℤ) (a : ℕ) (t : List ℕ) :
    validLoop market base (a :: t) =
      if pyTruthy (get_price_on_date market (base - (a : ℤ))) then
        (get_price_on_date market (base - (a : ℤ)), some (base - (a : ℤ)))
      else validLoop market base t := rfl

lemma validLoop_all_falsy (market : ℤ → Option ℚ) (base : ℤ) (l : List ℕ)
    (h : ∀ i ∈ l, pyTruthy (market (base - (i : ℤ))) = false) :
    validLoop market base l = (none, none) := by
  induction l with
  | nil => rfl
  | cons a t ih =>
    rw [validLoop_cons, get_price_on_date, h a (List.mem_cons_self a t)]
    simpa using ih (fun i hi => h i (List.mem_cons_of_mem a hi))

lemma validLoop_append (market : ℤ → Option ℚ) (base : ℤ) (l₁ l₂ : List ℕ) :
    validLoop market base (l₁ ++ l₂) =
      if (validLoop market base l₁).2 = none then validLoop market base l₂
      else validLoop market base l₁ := by
  induction l₁ with
  | nil => simp [validLoop_nil]
  | cons a t ih =>
    rw [List.cons_append, validLoop_cons, validLoop_cons]
    by_cases hA : pyTruthy (get_price_on_date market (base - (a : ℤ))) = true
    · rw [if_pos hA, if_pos hA]
      simp
    · rw [if_neg hA, if_neg hA, ih]

lemma validLoop_hit_inv (market : ℤ → Option ℚ) (base : ℤ) (l : List ℕ) (x : ℤ)
    (h : (validLoop market base l).2 = some x) :
    ∃ p, market x = some p ∧ p ≠ 0 ∧ (validLoop market base l).1 = some p := by
  induction l with
  | nil => simp [validLoop_nil] at h
  | cons a t ih =>
    rw [validLoop_cons] at h ⊢
    by_cases hA : pyTruthy (get_price_on_date market (base - (a : ℤ))) = true
    · rw [if_pos hA] at h ⊢
      cases hm : market (base - (a : ℤ)) with
      | none => rw [get_price_on_date, hm] at hA; exact absurd hA (by simp [pyTruthy])
      | some p =>
        rw [get_price_on_date, hm] at hA
        have hp : p ≠ 0 := by simpa [pyTruthy] using hA
        have hx : x = base - (a : ℤ) := by
          simpa using h.symm
        refine ⟨p, by rw [hx, hm], hp, ?_⟩
        simp [get_price_on_date, hm]
    · rw [if_neg hA] at h ⊢
      exact ih h

lemma validLoop_fst_some (market : ℤ → Option ℚ) (base : ℤ) (l : List ℕ) (p : ℚ)
    (h : (validLoop market base l).1 = some p) : p ≠ 0 := by
  induction l with
  | nil => simp [validLoop_nil] at h
  | cons a t ih =>
    rw [validLoop_cons] at h
    by_cases hA : pyTruthy (get_price_on_date market (base - (a : ℤ))) = true
    · rw [if_pos hA] at h
      simp only at h
      rw [get_price_on_date] at h hA
      rw [h] at hA
      simpa [pyTruthy] using hA
    · rw [if_neg hA] at h
      exact ih h

lemma validLoop_mask_zero (market : ℤ → Option ℚ) (base d : ℤ)
    (hd : market d = some 0) (l : List ℕ) :
    validLoop market base l =
      validLoop (fun x => if x = d then none else market x) base l := by
  induction l with
  | nil => rfl
  | cons a t ih =>
    rw [validLoop_cons, validLoop_cons]
    by_cases hx : base - (a : ℤ) = d
    · have h1 : pyTruthy (get_price_on_date market (base - (a : ℤ))) = false := by
        rw [get_price_on_date, hx, hd]; rfl
      have h2 : pyTruthy (get_price_on_date
          (fun x => if x = d then none else market x) (base - (a : ℤ))) = false := by
        simp [get_price_on_date, hx, pyTruthy]
      rw [h1, h2]
      simpa using ih
    · have heq : get_price_on_date (fun x => if x = d then none else market x)
          (base - (a : ℤ)) = get_price_on_date market (base - (a : ℤ)) := by
        simp [get_price_on_date, hx]
      rw [heq]
      by_cases hA : pyTruthy (get_price_on_date market (base - (a : ℤ))) = true
      · rw [if_pos hA, if_pos hA]
      · rw [if_neg hA, if_neg hA, ih]

/-! ## Theorems: price lookup (C7, C10) -/

/-- C7: `get_valid_price` probes the 14 candidate dates `base`, `base-1`,
…, `base-13` in that order; when the provider records only non-zero closes,
it returns `(price, date)` for the first candidate date carrying a price,
and `(None, None)` when none of the 14 candidates does. -/
theorem get_valid_price_search (market : ℤ → Option ℚ) (base : ℤ)
    (hpos : ∀ d x, market d = some x → x ≠ 0) :
    (∀ i : ℕ, i < 14 → ∀ p, market (base - (i : ℤ)) = some p →
      (∀ j : ℕ, j < i → market (base - (j : ℤ)) = none) →
      get_valid_price market base = (some p, some (base - (i : ℤ)))) ∧
    ((∀ i : ℕ, i < 14 → market (base - (i : ℤ)) = none) →
      get_valid_price market base = (none, none)) := by
  constructor
  · intro i hi p hp hmin
    obtain ⟨k, hk⟩ : ∃ k, 14 - i = k + 1 := ⟨14 - i - 1, by omega⟩
    have hsplit : List.range 14 =
        List.range i ++ i :: (List.range k).map (fun j => i + Nat.succ j) := by
      conv_lhs => rw [show (14 : ℕ) = i + (14 - i) by omega, List.range_add, hk,
        List.range_succ_eq_map]
      simp [List.map_map, Function.comp]
    unfold get_valid_price
    rw [hsplit, validLoop_append,
      validLoop_all_falsy market base (List.range i)
        (fun j hj => by rw [hmin j (List.mem_range.mp hj)]; rfl)]
    rw [if_pos rfl, validLoop_cons, get_price_on_date, hp]
    have : pyTruthy (some p) = true := by
      simpa [pyTruthy] using hpos _ p hp
    rw [this]
    simp
  · intro h
    unfold get_valid_price
    exact validLoop_all_falsy market base (List.range 14)
      (fun i hi => by rw [h i (List.mem_range.mp hi)]; rfl)

theorem get_valid_price_search_witness :
    (∀ d x, (fun t : ℤ => if t = 90 then some (7 : ℚ) else none) d = some x → x ≠ 0) ∧
    (10 : ℕ) < 14 ∧
    (fun t : ℤ => if t = 90 then some (7 : ℚ) else none) (100 - (10 : ℕ)) = some 7 ∧
    get_valid_price (fun t : ℤ => if t = 90 then some (7 : ℚ) else none) 100 =
      (some 7, some (100 - ((10 : ℕ) : ℤ))) ∧
    get_valid_price (fun _ : ℤ => none) 100 = (none, none) := by
  have hpos : ∀ d x, (fun t : ℤ => if t = 90 then some (7 : ℚ) else none) d = some x → x ≠ 0 := by
    intro d x h
    simp only [] at h
    split at h
    · injection h with h'
      rw [← h']
      norm_num
    · exact Option.noConfusion h
  refine ⟨hpos, by norm_num, by norm_num, ?_, ?_⟩
  · exact (get_valid_price_search (fun t : ℤ => if t = 90 then some (7 : ℚ) else none)
      100 hpos).1 10 (by norm_num) 7 (by norm_num)
      (fun j hj => by
        have : (100 : ℤ) - (j : ℤ) ≠ 90 := by omega
        simp [this])
  · exact (get_valid_price_search (fun _ : ℤ => none) 100
      (fun _ x h => by simp at h)).2 (fun _ _ => rfl)

/-- C10 (implicit): a recorded closing price equal to 0 is treated exactly
like an absent price: `get_valid_price` behaves as if that day had no data
(the backward search continues past it), and a day whose stored close is 0
is never returned as the hit; moreover any returned price is non-zero. -/
theorem get_valid_price_zero_like_missing (market : ℤ → Option ℚ) (base d : ℤ)
    (hd : market d = some 0) :
    get_valid_price market base =
      get_valid_price (fun x => if x = d then none else market x) base ∧
    (get_valid_price market base).2 ≠ some d ∧
    (∀ p, (get_valid_price market base).1 = some p → p ≠ 0) := by
  refine ⟨validLoop_mask_zero market base d hd (List.range 14), ?_, ?_⟩
  · intro hcontra
    obtain ⟨p, hp, hpne, -⟩ := validLoop_hit_inv market base (List.range 14) d hcontra
    rw [hd] at hp
    exact hpne (by simpa using hp.symm)
  · intro p hp
    exact validLoop_fst_some market base (List.range 14) p hp

theorem get_valid_price_zero_like_missing_witness :
    (fun t : ℤ => if t = 99 then some (0 : ℚ) else if t = 98 then some (5 : ℚ) else none)
        99 = some 0 ∧
    get_valid_price
        (fun t : ℤ => if t = 99 then some (0 : ℚ) else if t = 98 then some (5 : ℚ) else none)
        100 =
      get_valid_price (fun x =>
        if x = 99 then none
        else (fun t : ℤ =>
          if t = 99 then some (0 : ℚ) else if t = 98 then some (5 : ℚ) else none) x) 100 ∧
    (get_valid_price
        (fun t : ℤ => if t = 99 then some (0 : ℚ) else if t = 98 then some (5 : ℚ) else none)
        100).2 ≠ some 99 ∧
    (∀ p, (get_valid_price
        (fun t : ℤ => if t = 99 then some (0 : ℚ) else if t = 98 then some (5 : ℚ) else none)
        100).1 = some p → p ≠ 0) := by
  have hd : (fun t : ℤ =>
      if t = 99 then some (0 : ℚ) else if t = 98 then some (5 : ℚ) else none) 99 = some 0 := by
    norm_num
  exact ⟨hd, (get_valid_price_zero_like_missing _ 100 99 hd).1,
    (get_valid_price_zero_like_missing _ 100 99 hd).2.1,
    (get_valid_price_zero_like_missing _ 100 99 hd).2.2⟩

/-! ## Theorems: ten cap (C4, C5) -/

/-- C5: `calculate_ten_cap_price` returns `None` whenever any of the three
statement collections has no record matching the requested calendar year, and
whenever the shares-outstanding value resolved through the four-field
fallback chain is not strictly positive. -/
theorem ten_cap_none_conditions (income_data : List IncomeRecord)
    (cashflow_data : List CashflowRecord) (metrics : List MetricsRecord)
    (year : ℤ) :
    (findIncome income_data year = none →
      calculate_ten_cap_price income_data cashflow_data metrics year = none) ∧
    (findCashflow cashflow_data year = none →
      calculate_ten_cap_price income_data cashflow_data metrics year = none) ∧
    (findMetrics metrics year = none →
      calculate_ten_cap_price income_data cashflow_data metrics year = none) ∧
    (∀ i c m, findIncome income_data year = some i →
      findCashflow cashflow_data year = some c →
      findMetrics metrics year = some m →
      (pyOr m.weightedAverageShsOut (pyOr m.weightedAverageShsOutDil
        (pyOr i.weightedAverageShsOut i.weightedAverageShsOutDil))) / 1000000 ≤ 0 →
      calculate_ten_cap_price income_data cashflow_data metrics year = none) := by
  unfold calculate_ten_cap_price
  by_cases hE : income_data.isEmpty ∨ cashflow_data.isEmpty ∨ metrics.isEmpty
  · rw [if_pos hE]
    exact ⟨fun _ => rfl, fun _ => rfl, fun _ => rfl, fun _ _ _ _ _ _ _ => rfl⟩
  · rw [if_neg hE]
    refine ⟨?_, ?_, ?_, ?_⟩
    · intro h
      rw [h]
    · intro h
      cases hfi : findIncome income_data year <;> rw [h]
    · intro h
      cases hfi : findIncome income_data year <;>
        cases hfc : findCashflow cashflow_data year <;> rw [h]
    · intro i c m hi hc hm hsh
      rw [hi, hc, hm]
      simp only []
      rw [if_pos hsh]

theorem ten_cap_none_conditions_witness :
    (findIncome [] 2020 = none ∧ calculate_ten_cap_price [] [] [] 2020 = none) ∧
    (findIncome [{ calendarYear := 2020 }] 2020 = some { calendarYear := 2020 } ∧
     findCashflow [{ calendarYear := 2020 }] 2020 = some { calendarYear := 2020 } ∧
     findMetrics [{ calendarYear := 2020 }] 2020 = some { calendarYear := 2020 } ∧
     (pyOr (MetricsRecord.weightedAverageShsOut { calendarYear := 2020 })
       (pyOr (MetricsRecord.weightedAverageShsOutDil { calendarYear := 2020 })
         (pyOr (IncomeRecord.weightedAverageShsOut { calendarYear := 2020 })
           (IncomeRecord.weightedAverageShsOutDil { calendarYear := 2020 })))) / 1000000 ≤ 0 ∧
     calculate_ten_cap_price [{ calendarYear := 2020 }] [{ calendarYear := 2020 }]
       [{ calendarYear := 2020 }] 2020 = none) :=
  ⟨⟨rfl, (ten_cap_none_conditions [] [] [] 2020).1 rfl⟩,
   ⟨rfl, rfl, rfl, by norm_num [pyOr],
    (ten_cap_none_conditions [{ calendarYear := 2020 }] [{ calendarYear := 2020 }]
        [{ calendarYear := 2020 }] 2020).2.2.2
      { calendarYear := 2020 } { calendarYear := 2020 } { calendarYear := 2020 }
      rfl rfl rfl (by norm_num [pyOr])⟩⟩

/-- C4: whenever the year record is found in all three collections and the
resolved shares-outstanding value is strictly positive,
`calculate_ten_cap_price` returns `eps / 0.10` where
`eps = owner_earnings / shares_outstanding` and
`owner_earnings = profit_before_tax + depreciation + working_capital_change
- 0.5·|capitalExpenditure|` (all in millions, the working-capital change
being the receivables delta plus the payables delta); in particular
owner earnings `100 + 20 - 5 - 5 = 110`, `eps = 110/50 = 2.2` and ten-cap
price `22`. -/
theorem ten_cap_formula :
    (∀ (income_data : List IncomeRecord) (cashflow_data : List CashflowRecord)
        (metrics : List MetricsRecord) (year : ℤ)
        (i : IncomeRecord) (c : CashflowRecord) (m : MetricsRecord),
      findIncome income_data year = some i →
      findCashflow cashflow_data year = some c →
      findMetrics metrics year = some m →
      0 < (pyOr m.weightedAverageShsOut (pyOr m.weightedAverageShsOutDil
            (pyOr i.weightedAverageShsOut i.weightedAverageShsOutDil))) / 1000000 →
      calculate_ten_cap_price income_data cashflow_data metrics year =
        some (((i.incomeBeforeTax / 1000000 +
            (pyOr c.depreciationAndAmortization (pyOr c.depreciation
              (pyOr c.depreciationAmortizationDepletion
                c.depreciationDepletionAndAmortization))) / 1000000 +
            (c.accountsReceivables / 1000000 + c.accountsPayables / 1000000) -
            1/2 * (|c.capitalExpenditure| / 1000000)) /
          ((pyOr m.weightedAverageShsOut (pyOr m.weightedAverageShsOutDil
            (pyOr i.weightedAverageShsOut i.weightedAverageShsOutDil))) / 1000000)) /
          (10/100))) ∧
    calculate_owner_earnings 100 20 (-5) 10 = 110 ∧
    calculate_owner_earnings 100 20 (-5) 10 / 50 = 22/10 ∧
    (calculate_owner_earnings 100 20 (-5) 10 / 50) / (10/100) = 22 := by
  refine ⟨?_, by norm_num [calculate_owner_earnings],
    by norm_num [calculate_owner_earnings], by norm_num [calculate_owner_earnings]⟩
  intro income_data cashflow_data metrics year i c m hi hc hm hsh
  have hne : ¬(income_data.isEmpty ∨ cashflow_data.isEmpty ∨ metrics.isEmpty) := by
    rintro (h | h | h) <;>
      simp_all [findIncome, findCashflow, findMetrics, List.isEmpty_iff]
  unfold calculate_ten_cap_price
  rw [if_neg hne, hi, hc, hm]
  simp only []
  rw [if_neg (not_le.mpr hsh), if_pos hsh]
  exact congrArg some (by
    unfold calculate_owner_earnings calculate_working_capital_change
    ring)

theorem ten_cap_formula_witness :
    findIncome [tenCapIncomeSample] 2020 = some tenCapIncomeSample ∧
    (0 : ℚ) <
      (pyOr tenCapMetricsSample.weightedAverageShsOut
        (pyOr tenCapMetricsSample.weightedAverageShsOutDil
          (pyOr tenCapIncomeSample.weightedAverageShsOut
            tenCapIncomeSample.weightedAverageShsOutDil))) / 1000000 ∧
    calculate_ten_cap_price [tenCapIncomeSample] [tenCapCashflowSample]
      [tenCapMetricsSample] 2020 = some 22 := by
  refine ⟨rfl, by norm_num [pyOr, tenCapIncomeSample, tenCapMetricsSample], ?_⟩
  rw [ten_cap_formula.1 [tenCapIncomeSample] [tenCapCashflowSample]
    [tenCapMetricsSample] 2020 _ _ _ rfl rfl rfl
    (by norm_num [pyOr, tenCapIncomeSample, tenCapMetricsSample])]
  norm_num [pyOr, tenCapIncomeSample, tenCapCashflowSample, tenCapMetricsSample]

/-! ## Theorems: growth estimation (C2, C8, C9) -/

/-- C2: `mos_growth_estimate` raises the insufficient-history `ValueError`
exactly when `start_index = target_year - data_start_year - 5` is negative,
equivalently when `target_year - data_start_year < 5`; the error is produced
before any per-metric result, and otherwise the call returns a result. -/
theorem mos_growth_insufficient_history (data : List (String × List ℝ))
    (target_year data_start_year : ℤ) :
    (target_year - data_start_year < 5 →
      mos_growth_estimate data target_year data_start_year =
        .error "Not enough data points before target year to calculate CAGR") ∧
    (5 ≤ target_year - data_start_year →
      ∃ l, mos_growth_estimate data target_year data_start_year = .ok l) := by
  constructor
  · intro h
    unfold mos_growth_estimate
    rw [if_pos (by omega)]
  · intro h
    unfold mos_growth_estimate
    rw [if_neg (by omega)]
    exact ⟨_, rfl⟩

theorem mos_growth_insufficient_history_witness :
    ((2019 : ℤ) - 2015 < 5 ∧
      mos_growth_estimate [] 2019 2015 =
        .error "Not enough data points before target year to calculate CAGR") ∧
    (5 ≤ (2020 : ℤ) - 2015 ∧ ∃ l, mos_growth_estimate [] 2020 2015 = .ok l) :=
  ⟨⟨by norm_num, (mos_growth_insufficient_history [] 2019 2015).1 (by norm_num)⟩,
   ⟨by norm_num, (mos_growth_insufficient_history [] 2020 2015).2 (by norm_num)⟩⟩

/-- C8: `calculate_cagr` returns 0 whenever any of its arguments fails the
`float` conversion, and whenever `start ≤ 0`, `end ≤ 0` or `years ≤ 0`;
in particular `start = -5` gives 0 and `years = 0` gives 0. -/
theorem calculate_cagr_invalid_inputs :
    (∀ s e y : PyVal, s = .nonnum ∨ e = .nonnum ∨ y = .nonnum →
      calculate_cagr_py s e y = 0) ∧
    (∀ s e y : ℝ, s ≤ 0 ∨ e ≤ 0 ∨ y ≤ 0 →
      calculate_cagr_py (.num s) (.num e) (.num y) = 0) ∧
    (∀ e y : ℝ, calculate_cagr_py (.num (-5)) (.num e) (.num y) = 0) ∧
    (∀ s e : ℝ, calculate_cagr_py (.num s) (.num e) (.num 0) = 0) := by
  have hnum : ∀ s e y : ℝ, s ≤ 0 ∨ e ≤ 0 ∨ y ≤ 0 →
      calculate_cagr_py (.num s) (.num e) (.num y) = 0 := by
    intro s e y h
    show calculate_cagr s e y = 0
    unfold calculate_cagr
    rw [if_pos h]
  refine ⟨?_, hnum, ?_, ?_⟩
  · intro s e y h
    cases s <;> cases e <;> cases y <;>
      simp_all [calculate_cagr_py, pyFloat]
  · intro e y
    exact hnum (-5) e y (Or.inl (by norm_num))
  · intro s e
    exact hnum s e 0 (Or.inr (Or.inr le_rfl))

theorem calculate_cagr_invalid_inputs_witness :
    (PyVal.nonnum = PyVal.nonnum ∨ PyVal.num 2 = PyVal.nonnum ∨
      PyVal.num 5 = PyVal.nonnum) ∧
    calculate_cagr_py .nonnum (.num 2) (.num 5) = 0 ∧
    ((-5 : ℝ) ≤ 0 ∨ (2 : ℝ) ≤ 0 ∨ (5 : ℝ) ≤ 0) ∧
    calculate_cagr_py (.num (-5)) (.num 2) (.num 5) = 0 ∧
    calculate_cagr_py (.num 3) (.num 2) (.num 0) = 0 :=
  ⟨Or.inl rfl,
   calculate_cagr_invalid_inputs.1 .nonnum (.num 2) (.num 5) (Or.inl rfl),
   Or.inl (by norm_num),
   calculate_cagr_invalid_inputs.2.1 (-5) 2 5 (Or.inl (by norm_num)),
   calculate_cagr_invalid_inputs.2.2.2 3 2⟩

/-- C9: on strictly positive inputs, `calculate_cagr start start years = 0`,
and for fixed positive `start` and `years`, `calculate_cagr` is monotonically
increasing in `end` on the positive range. -/
theorem calculate_cagr_algebraic (start years e₁ e₂ : ℝ)
    (hs : 0 < start) (hy : 0 < years) :
    calculate_cagr start start years = 0 ∧
    (0 < e₁ → e₁ ≤ e₂ →
      calculate_cagr start e₁ years ≤ calculate_cagr start e₂ years) := by
  constructor
  · unfold calculate_cagr
    rw [if_neg (by push_neg; exact ⟨hs, hs, hy⟩)]
    rw [div_self hs.ne', Real.one_rpow, sub_self]
  · intro h1 h12
    have h2 : 0 < e₂ := lt_of_lt_of_le h1 h12
    unfold calculate_cagr
    rw [if_neg (by push_neg; exact ⟨hs, h1, hy⟩),
        if_neg (by push_neg; exact ⟨hs, h2, hy⟩)]
    have hdiv : e₁ / start ≤ e₂ / start := by gcongr
    exact sub_le_sub_right
      (Real.rpow_le_rpow (div_nonneg h1.le hs.le) hdiv
        (div_nonneg zero_le_one hy.le)) 1

theorem calculate_cagr_algebraic_witness :
    0 < (1 : ℝ) ∧ 0 < (5 : ℝ) ∧ 0 < (1 : ℝ) ∧ (1 : ℝ) ≤ 2 ∧
    calculate_cagr 1 1 5 = 0 ∧ calculate_cagr 1 1 5 ≤ calculate_cagr 1 2 5 :=
  ⟨by norm_num, by norm_num, by norm_num, by norm_num,
   (calculate_cagr_algebraic 1 5 1 2 (by norm_num) (by norm_num)).1,
   (calculate_cagr_algebraic 1 5 1 2 (by norm_num) (by norm_num)).2
     (by norm_num) (by norm_num)⟩

/-! ## Theorems: intrinsic value (C3) -/

/-- C3: `calculate_intrinsic_value` returns the all-zero degenerate result
whenever `eps_now ≤ 0` or `growth_rate ≤ 0`; otherwise it returns the
formula chain `eps_10y = eps_now·(1+g)¹⁰`,
`future_value = eps_10y·(g·200)`,
`fair_value_today = future_value/(1+discount_rate)¹⁰`,
`mos_price = fair_value_today·(1-mos)`, each rounded to 2 decimals. -/
theorem calculate_intrinsic_value_spec (eps_now growth_rate discount_rate mos : ℚ)
    (breach_year : ℤ) :
    (eps_now ≤ 0 ∨ growth_rate ≤ 0 →
      calculate_intrinsic_value eps_now growth_rate breach_year discount_rate mos =
        [("EPS_10y", 0), ("Future Value", 0), ("Fair Value Today", 0),
         ("MOS Price (50%)", 0)]) ∧
    (0 < eps_now → 0 < growth_rate →
      calculate_intrinsic_value eps_now growth_rate breach_year discount_rate mos =
        [("Groth_rate", round2 (growth_rate * 100)),
         ("EPS_now", round2 eps_now),
         ("EPS_10y", round2 (eps_now * (1 + growth_rate) ^ (10 : ℕ))),
         ("Future Value",
            round2 (eps_now * (1 + growth_rate) ^ (10 : ℕ) * (growth_rate * 200))),
         ("Fair Value Today",
            round2 (eps_now * (1 + growth_rate) ^ (10 : ℕ) * (growth_rate * 200) /
              (1 + discount_rate) ^ (10 : ℕ))),
         ("MOS Price (50%)",
            round2 (eps_now * (1 + growth_rate) ^ (10 : ℕ) * (growth_rate * 200) /
              (1 + discount_rate) ^ (10 : ℕ) * (1 - mos)))]) := by
  constructor
  · intro h
    unfold calculate_intrinsic_value
    rw [if_pos h]
  · intro he hg
    unfold calculate_intrinsic_value
    rw [if_neg (by push_neg; exact ⟨he, hg⟩)]

theorem calculate_intrinsic_value_spec_witness :
    0 < (1 : ℚ) ∧ 0 < (1/10 : ℚ) ∧
    calculate_intrinsic_value 1 (1/10) 2020 =
      [("Groth_rate", 10), ("EPS_now", 1), ("EPS_10y", 259/100),
       ("Future Value", 5187/100), ("Fair Value Today", 1282/100),
       ("MOS Price (50%)", 641/100)] := by
  refine ⟨by norm_num, by norm_num, ?_⟩
  rw [(calculate_intrinsic_value_spec 1 (1/10) (15/100) (50/100) 2020).2
    (by norm_num) (by norm_num)]
  norm_num [round2, round_eq]

/-! ## Lemmas about the growth-estimation loop and real fifth roots -/

lemma mosLoop_nil (si : ℕ) : mosLoop si [] = ([], []) := rfl

lemma mosLoop_cons (si : ℕ) (key : String) (values : List ℝ)
    (rest : List (String × List ℝ)) :
    mosLoop si ((key, values) :: rest) =
      if values.length < si + 6 then
        ((key, 0) :: (mosLoop si rest).1, (mosLoop si rest).2)
      else if 0 < values.getD si 0 ∧ 0 < values.getD (si + 5) 0 then
        ((key, round2 (calculate_cagr (values.getD si 0) (values.getD (si + 5) 0) 5 * 100))
            :: (mosLoop si rest).1,
          calculate_cagr (values.getD si 0) (values.getD (si + 5) 0) 5 :: (mosLoop si rest).2)
      else ((key, 0) :: (mosLoop si rest).1, (0 : ℝ) :: (mosLoop si rest).2) := rfl

lemma mos_growth_estimate_eq (data : List (String × List ℝ)) (t s : ℤ) :
    mos_growth_estimate data t s =
      if t - s - 5 < 0 then
        .error "Not enough data points before target year to calculate CAGR"
      else
        .ok ((mosLoop (t - s - 5).toNat data).1 ++
          [("avg", round2 ((if (mosLoop (t - s - 5).toNat data).2.length ≠ 0 then
              (mosLoop (t - s - 5).toNat data).2.sum /
                ((mosLoop (t - s - 5).toNat data).2.length : ℝ)
            else 0) * 100))]) := rfl

lemma mosLoop_eq (si : ℕ) (data : List (String × List ℝ)) :
    mosLoop si data =
      (data.map (fun kv => (kv.1, metricDetail si kv.2)),
       data.filterMap (fun kv => metricGrowth si kv.2)) := by
  induction data with
  | nil => rfl
  | cons kv rest ih =>
    obtain ⟨key, values⟩ := kv
    by_cases h1 : values.length < si + 6
    · have hd : metricDetail si values = 0 := by
        unfold metricDetail; rw [if_pos h1]
      have hg : (fun kv : String × List ℝ => metricGrowth si kv.2) (key, values) = none := by
        show metricGrowth si values = none
        unfold metricGrowth; rw [if_pos h1]
      rw [mosLoop_cons, if_pos h1, ih, List.map_cons,
        @List.filterMap_cons_none _ _ (fun kv => metricGrowth si kv.2) (key, values) rest hg,
        hd]
    · by_cases h2 : 0 < values.getD si 0 ∧ 0 < values.getD (si + 5) 0
      · have hd : metricDetail si values =
            round2 (calculate_cagr (values.getD si 0) (values.getD (si + 5) 0) 5 * 100) := by
          unfold metricDetail; rw [if_neg h1, if_pos h2]
        have hg : (fun kv : String × List ℝ => metricGrowth si kv.2) (key, values) =
            some (calculate_cagr (values.getD si 0) (values.getD (si + 5) 0) 5) := by
          show metricGrowth si values = _
          unfold metricGrowth; rw [if_neg h1, if_pos h2]
        rw [mosLoop_cons, if_neg h1, if_pos h2, ih, List.map_cons,
          @List.filterMap_cons_some _ _ (fun kv => metricGrowth si kv.2) (key, values) rest _ hg,
          hd]
      · have hd : metricDetail si values = 0 := by
          unfold metricDetail; rw [if_neg h1, if_neg h2]
        have hg : (fun kv : String × List ℝ => metricGrowth si kv.2) (key, values) =
            some 0 := by
          show metricGrowth si values = _
          unfold metricGrowth; rw [if_neg h1, if_neg h2]
        rw [mosLoop_cons, if_neg h1, if_neg h2, ih, List.map_cons,
          @List.filterMap_cons_some _ _ (fun kv => metricGrowth si kv.2) (key, values) rest _ hg,
          hd]

lemma filterMap_growth_pairs (si : ℕ) (e b r c : List ℝ) :
    List.filterMap (fun kv => metricGrowth si kv.2)
        [("eps", e), ("book", b), ("revenue", r), ("cashflow", c)] =
      List.filterMap (metricGrowth si) [e, b, r, c] := by
  simp only [List.filterMap_cons, List.filterMap_nil]

lemma calculate_cagr_pos (start endVal : ℝ) (hs : 0 < start) (he : 0 < endVal) :
    calculate_cagr start endVal 5 = (endVal / start) ^ ((1 : ℝ) / 5) - 1 := by
  unfold calculate_cagr
  rw [if_neg (by push_neg; exact ⟨hs, he, by norm_num⟩)]

lemma rpow_fifth_pow_five (x : ℝ) (hx : 0 ≤ x) :
    (x ^ ((1 : ℝ) / 5)) ^ (5 : ℕ) = x := by
  rw [← Real.rpow_natCast (x ^ ((1 : ℝ) / 5)) 5, ← Real.rpow_mul hx]
  norm_num

lemma thirtytwo_rpow_fifth : (32 : ℝ) ^ ((1 : ℝ) / 5) = 2 := by
  rw [show (32 : ℝ) = (2 : ℝ) ^ (5 : ℕ) by norm_num,
    ← Real.rpow_natCast 2 5, ← Real.rpow_mul (by norm_num : (0 : ℝ) ≤ 2)]
  norm_num

lemma calculate_cagr_1_32 : calculate_cagr 1 32 5 = 1 := by
  rw [calculate_cagr_pos 1 32 (by norm_num) (by norm_num),
    show (32 : ℝ) / 1 = 32 by norm_num, thirtytwo_rpow_fifth]
  norm_num

lemma two_rpow_fifth_bounds :
    (114865 / 100000 : ℝ) < (2 : ℝ) ^ ((1 : ℝ) / 5) ∧
      (2 : ℝ) ^ ((1 : ℝ) / 5) < 114875 / 100000 := by
  have h0 : (0 : ℝ) ≤ (2 : ℝ) ^ ((1 : ℝ) / 5) := Real.rpow_nonneg (by norm_num) _
  have hpow := rpow_fifth_pow_five 2 (by norm_num)
  constructor
  · apply lt_of_pow_lt_pow_left₀ 5 h0
    rw [hpow]
    norm_num
  · apply lt_of_pow_lt_pow_left₀ 5 (by norm_num : (0 : ℝ) ≤ 114875 / 100000)
    rw [hpow]
    norm_num

lemma round2_cagr_1_2 : round2 (calculate_cagr 1 2 5 * 100) = 1487 / 100 := by
  obtain ⟨h1, h2⟩ := two_rpow_fifth_bounds
  rw [calculate_cagr_pos 1 2 (by norm_num) (by norm_num),
    show (2 : ℝ) / 1 = 2 by norm_num]
  unfold round2
  rw [round_eq,
    show ⌊((2 : ℝ) ^ ((1 : ℝ) / 5) - 1) * 100 * 100 + 1 / 2⌋ = 1487 from
      Int.floor_eq_iff.mpr (by constructor <;> push_cast <;> nlinarith)]
  norm_num

lemma round2_100 : round2 (100 : ℝ) = 100 := by
  unfold round2
  rw [show (100 : ℝ) * 100 = ((10000 : ℤ) : ℝ) by norm_num, round_intCast]
  norm_num

lemma round2_75 : round2 (75 : ℝ) = 75 := by
  unfold round2
  rw [show (75 : ℝ) * 100 = ((7500 : ℤ) : ℝ) by norm_num, round_intCast]
  norm_num

/-! ## Theorems: the growth average (C1) and the per-metric CAGR (C6) -/

/-- C1 counterexample: with the eps series one year too short and the other
three metrics each doubling over their window via a factor of 32 (decimal
CAGR exactly 1), the code's `avg` is 100 — the mean over the three
non-skipped metrics — while the claim's formula, the mean over all four
metrics with the skipped one counted as 0, gives 75. -/
theorem mos_growth_avg_counterexample :
    mos_growth_estimate [("eps", [1, 1, 1, 1, 1]), ("book", [1, 1, 1, 1, 1, 32]),
        ("revenue", [1, 1, 1, 1, 1, 32]), ("cashflow", [1, 1, 1, 1, 1, 32])] 2020 2015 =
      .ok [("eps", 0), ("book", 100), ("revenue", 100), ("cashflow", 100), ("avg", 100)] ∧
    round2 (100 * ((0 + calculate_cagr 1 32 5 + calculate_cagr 1 32 5 +
        calculate_cagr 1 32 5) / 4)) = 75 ∧
    (75 : ℝ) ≠ 100 := by
  have g0 : ([1, 1, 1, 1, 1, 32] : List ℝ).getD 0 0 = 1 := rfl
  have g5 : ([1, 1, 1, 1, 1, 32] : List ℝ).getD (0 + 5) 0 = 32 := rfl
  refine ⟨?_, ?_, by norm_num⟩
  · rw [mos_growth_estimate_eq, if_neg (by norm_num),
      show ((2020 : ℤ) - 2015 - 5).toNat = 0 from rfl]
    norm_num [mosLoop_cons, mosLoop_nil, g0, g5, calculate_cagr_1_32, round2_100]
  · rw [calculate_cagr_1_32]
    norm_num [round2_75]

/-- C1 as amended: for a valid start index, the `avg` entry is the rounded
percentage of the mean of the decimal CAGRs of the *non-skipped* metrics
only: a metric whose series is shorter than `start_index + 6` is excluded
from both the numerator and the denominator (and if all four are skipped the
average is 0); metrics with non-positive window endpoints still count as 0. -/
theorem mos_growth_avg_amended (e b r c : List ℝ) (t s : ℤ) (h : 5 ≤ t - s) :
    mos_growth_estimate [("eps", e), ("book", b), ("revenue", r), ("cashflow", c)] t s =
      .ok [("eps", metricDetail (t - s - 5).toNat e),
           ("book", metricDetail (t - s - 5).toNat b),
           ("revenue", metricDetail (t - s - 5).toNat r),
           ("cashflow", metricDetail (t - s - 5).toNat c),
           ("avg", mosAvgSpec (t - s - 5).toNat [e, b, r, c])] := by
  rw [mos_growth_estimate_eq, if_neg (by omega), mosLoop_eq]
  unfold mosAvgSpec
  rw [filterMap_growth_pairs]
  simp

theorem mos_growth_avg_amended_witness :
    5 ≤ (2020 : ℤ) - 2015 ∧
    mos_growth_estimate [("eps", []), ("book", []), ("revenue", []),
        ("cashflow", [])] 2020 2015 =
      .ok [("eps", metricDetail ((2020 : ℤ) - 2015 - 5).toNat []),
           ("book", metricDetail ((2020 : ℤ) - 2015 - 5).toNat []),
           ("revenue", metricDetail ((2020 : ℤ) - 2015 - 5).toNat []),
           ("cashflow", metricDetail ((2020 : ℤ) - 2015 - 5).toNat []),
           ("avg", mosAvgSpec ((2020 : ℤ) - 2015 - 5).toNat [[], [], [], []])] :=
  ⟨by norm_num, mos_growth_avg_amended [] [] [] [] 2020 2015 (by norm_num)⟩

/-- C6: a metric whose series reaches `start_index + 6` entries and whose
window endpoints are both strictly positive gets
`round(((end/start)^(1/5) - 1)·100, 2)` stored as its detail; in particular
the 6-year window `[1,1,1,1,1,2]` yields 14.87. -/
theorem mos_metric_cagr :
    (∀ (si : ℕ) (key : String) (values : List ℝ) (rest : List (String × List ℝ)),
      ¬ values.length < si + 6 →
      0 < values.getD si 0 → 0 < values.getD (si + 5) 0 →
      (mosLoop si ((key, values) :: rest)).1 =
        (key, round2 (((values.getD (si + 5) 0 / values.getD si 0) ^ ((1 : ℝ) / 5) - 1)
            * 100)) :: (mosLoop si rest).1) ∧
    mos_growth_estimate [("eps", [1, 1, 1, 1, 1, 2])] 2020 2015 =
      .ok [("eps", 1487 / 100), ("avg", 1487 / 100)] := by
  constructor
  · intro si key values rest hlen hs he
    rw [mosLoop_cons, if_neg hlen, if_pos ⟨hs, he⟩,
      calculate_cagr_pos (values.getD si 0) (values.getD (si + 5) 0) hs he]
  · have g0 : ([1, 1, 1, 1, 1, 2] : List ℝ).getD 0 0 = 1 := rfl
    have g5 : ([1, 1, 1, 1, 1, 2] : List ℝ).getD (0 + 5) 0 = 2 := rfl
    rw [mos_growth_estimate_eq, if_neg (by norm_num),
      show ((2020 : ℤ) - 2015 - 5).toNat = 0 from rfl]
    norm_num [mosLoop_cons, mosLoop_nil, g0, g5, round2_cagr_1_2]

theorem mos_metric_cagr_witness :
    ¬ ([1, 1, 1, 1, 1, 2] : List ℝ).length < 0 + 6 ∧
    (0 : ℝ) < ([1, 1, 1, 1, 1, 2] : List ℝ).getD 0 0 ∧
    (0 : ℝ) < ([1, 1, 1, 1, 1, 2] : List ℝ).getD (0 + 5) 0 ∧
    (mosLoop 0 [("eps", [1, 1, 1, 1, 1, 2])]).1 =
      [("eps", round2 (((([1, 1, 1, 1, 1, 2] : List ℝ).getD (0 + 5) 0 /
          ([1, 1, 1, 1, 1, 2] : List ℝ).getD 0 0) ^ ((1 : ℝ) / 5) - 1) * 100))] :=
  ⟨by norm_num,
   by rw [show ([1, 1, 1, 1, 1, 2] : List ℝ).getD 0 0 = 1 from rfl]; norm_num,
   by rw [show ([1, 1, 1, 1, 1, 2] : List ℝ).getD (0 + 5) 0 = 2 from rfl]; norm_num,
   mos_metric_cagr.1 0 "eps" [1, 1, 1, 1, 1, 2] []
     (by norm_num)
     (by rw [show ([1, 1, 1, 1, 1, 2] : List ℝ).getD 0 0 = 1 from rfl]; norm_num)
     (by rw [show ([1, 1, 1, 1, 1, 2] : List ℝ).getD (0 + 5) 0 = 2 from rfl]; norm_num)⟩
